import Mathlib

/-!
# openspotify-simple: the session driver of `simple.c`

A shallow embedding of `src/openspotify-simple/simple.c`: the global
`g_exit_code`, the six session callbacks, the function `loop` and `main`.

The session library (`spotify/api.h`) is external.  It is represented by a
`Library` value that fixes, for one run, what each library call answers and
which callbacks the library invokes while the driver is inside
`sp_session_process_events` and while it waits (the library calls
`sp_session_init`, `sp_session_login` and `sp_session_logout` only answer).
Diagnostic output
(`DSFYDEBUG`, `fprintf`, `printf`) does not influence control flow and is left
out; every call into the library and every hook call is recorded, in order, in
a trace.
-/

namespace OpenSpotify

/-- Result type of the library calls (`sp_error`, a C enum). -/
abbrev sp_error := Int

/-- The success value of `sp_error` in `spotify/api.h`. -/
def SP_ERROR_OK : sp_error := 0

/-- The callbacks registered in `g_callbacks`, with their non-session arguments. -/
inductive Callback where
  | connection_error (error : sp_error)
  | logged_in (error : sp_error)
  | logged_out
  | notify_main_thread
  | log_message (data : String)
  | metadata_updated
  deriving DecidableEq, Repr

/-- Observable actions of the driver, in program order. -/
inductive Event where
  | sp_session_init
  | sp_session_login (username password : String)
  | sp_session_process_events
  | wait (timeout : Int)
  | sp_session_logout
  | sp_session_user
  | session_ready
  | session_terminated
  | wake
  | invoked (cb : Callback)
  deriving DecidableEq, Repr

/-- Process-wide state: the global `g_exit_code` and the trace of actions so far. -/
structure World where
  g_exit_code : Int
  trace : List Event
  deriving DecidableEq, Repr

/-- State at program start: `int g_exit_code = -1;` and nothing done yet. -/
def World.start : World := { g_exit_code := -1, trace := [] }

/-- Record one action at the end of the trace. -/
def emit (e : Event) (w : World) : World :=
  { w with trace := w.trace ++ [e] }

/-- Hook `session_ready`: only a debug line in the source. -/
def session_ready (w : World) : World := emit Event.session_ready w

/-- Hook `session_terminated`: only a debug line in the source. -/
def session_terminated (w : World) : World := emit Event.session_terminated w

/-- Callback `connection_error`: `g_exit_code = 5;` without any test. -/
def connection_error (_error : sp_error) (w : World) : World :=
  { w with g_exit_code := 5 }

/-- Callback `logged_in`: on an error `g_exit_code = 4; return;`, otherwise the
user is looked up on the session and `session_ready` is called. -/
def logged_in (error : sp_error) (w : World) : World :=
  if SP_ERROR_OK ≠ error then
    { w with g_exit_code := 4 }
  else
    session_ready (emit Event.sp_session_user w)

/-- Callback `logged_out`: `if (g_exit_code < 0) g_exit_code = 0;`. -/
def logged_out (w : World) : World :=
  if w.g_exit_code < 0 then { w with g_exit_code := 0 } else w

/-- Callback `notify_main_thread`: posts the wake (`PulseEvent` or `pthread_kill`
with `SIGIO`). -/
def notify_main_thread (w : World) : World := emit Event.wake w

/-- Callback `log_message`: prints the text only. -/
def log_message (_data : String) (w : World) : World := w

/-- Callback `metadata_updated`: a debug line only. -/
def metadata_updated (w : World) : World := w

/-- The library invokes one registered callback. -/
def dispatch (cb : Callback) (w : World) : World :=
  let w1 := emit (Event.invoked cb) w
  match cb with
  | Callback.connection_error error => connection_error error w1
  | Callback.logged_in error => logged_in error w1
  | Callback.logged_out => logged_out w1
  | Callback.notify_main_thread => notify_main_thread w1
  | Callback.log_message data => log_message data w1
  | Callback.metadata_updated => metadata_updated w1

/-- The library invokes a sequence of callbacks, first to last. -/
def dispatch_all : List Callback → World → World
  | [], w => w
  | cb :: rest, w => dispatch_all rest (dispatch cb w)

/-- One run of the external session library as the driver sees it. -/
structure Library where
  /-- Answer of `sp_session_init`. -/
  init_result : sp_error
  /-- Answer of `sp_session_login`. -/
  login_result : sp_error
  /-- Answer of `sp_session_logout`. -/
  logout_result : sp_error
  /-- Callbacks invoked inside the `k`-th call (from 0) of `sp_session_process_events`. -/
  during_process_events : Nat → List Callback
  /-- Value the `k`-th call of `sp_session_process_events` stores in `timeout`. -/
  next_timeout : Nat → Int
  /-- Callbacks invoked from the library context during the wait that follows the `k`-th call. -/
  during_wait : Nat → List Callback

/-- Two-complement value of a C `int` after an increment. -/
def wrap32 (x : Int) : Int := (x + 2 ^ 31) % 2 ^ 32 - 2 ^ 31

/-- Variables of `loop` together with the process-wide state. -/
structure LoopState where
  world : World
  i : Int
  timeout : Int
  /-- Number of `sp_session_process_events` calls made so far. -/
  polls : Nat

/-- Entry of `loop`: `int i = 0; int timeout = -1;`. -/
def loop_entry (w : World) : LoopState :=
  { world := w, i := 0, timeout := -1, polls := 0 }

/-- One pass through the body of `while (g_exit_code < 0)`.  The flag is `true`
when the body executed `return`. -/
def iteration (lib : Library) (s : LoopState) : LoopState × Bool :=
  let w1 := dispatch_all (lib.during_process_events s.polls)
    (emit Event.sp_session_process_events s.world)
  let timeout := lib.next_timeout s.polls
  let w2 := dispatch_all (lib.during_wait s.polls) (emit (Event.wait timeout) w1)
  let i := wrap32 (s.i + 1)
  if i = 15 then
    let w3 := emit Event.sp_session_logout w2
    if SP_ERROR_OK ≠ lib.logout_result then
      ({ world := { w3 with g_exit_code := 5 }, i := i, timeout := timeout,
         polls := s.polls + 1 }, true)
    else
      ({ world := w3, i := i, timeout := timeout, polls := s.polls + 1 }, false)
  else
    ({ world := w2, i := i, timeout := timeout, polls := s.polls + 1 }, false)

/-- The function `loop`, run for at most `n` passes.  The flag is `true` when
`loop` has returned (the state is then the final one) and `false` when it is
still running after `n` passes. -/
def loop (lib : Library) : Nat → LoopState → LoopState × Bool
  | 0, s => (s, decide (¬ s.world.g_exit_code < 0))
  | n + 1, s =>
    if s.world.g_exit_code < 0 then
      let r := iteration lib s
      if r.2 then (r.1, true) else loop lib n r.1
    else
      (s, true)

/-- The usage test of `main`: `argc < 3 || argv[1][0] == '-'`. -/
def usage_error (argv : List String) : Bool :=
  decide (argv.length < 3) || ((argv.getD 1 "").data.head? == some '-')

/-- The function `main`: the value returned and the final state, or `none` when
`loop` is still running after `fuel` passes. -/
def main (lib : Library) (fuel : Nat) (argv : List String) : Option (Int × World) :=
  if usage_error argv then
    some (1, World.start)
  else
    let w1 := emit Event.sp_session_init World.start
    if SP_ERROR_OK ≠ lib.init_result then
      some (2, w1)
    else
      let w2 := emit (Event.sp_session_login (argv.getD 1 "") (argv.getD 2 "")) w1
      if SP_ERROR_OK ≠ lib.login_result then
        some (3, w2)
      else
        let r := loop lib fuel (loop_entry w2)
        if r.2 then
          some (0, session_terminated r.1.world)
        else
          none

/-- Callbacks that store a failure code: `connection_error`, and `logged_in`
with an error. -/
def Callback.stores_failure : Callback → Bool
  | Callback.connection_error _ => true
  | Callback.logged_in error => decide (SP_ERROR_OK ≠ error)
  | _ => false

/-- Callbacks that can write `g_exit_code`: the failure writers and `logged_out`. -/
def Callback.terminal : Callback → Bool
  | Callback.logged_out => true
  | cb => cb.stores_failure

/-- A library that never invokes a callback and accepts every request. -/
def quiet_library : Library :=
  { init_result := SP_ERROR_OK, login_result := SP_ERROR_OK, logout_result := SP_ERROR_OK,
    during_process_events := fun _ => [], next_timeout := fun _ => 100,
    during_wait := fun _ => [] }

/-- A library whose first `sp_session_process_events` call reports an
authentication failure and then a connection failure. -/
def two_failures_library : Library :=
  { quiet_library with
    during_process_events := fun k =>
      if k = 0 then [Callback.logged_in 1, Callback.connection_error 2] else [] }

/-- A library whose first `sp_session_process_events` call reports a connection failure. -/
def network_failure_library : Library :=
  { quiet_library with
    during_process_events := fun k => if k = 0 then [Callback.connection_error 1] else [] }

/-- A library that never invokes a callback and refuses the logout request. -/
def failing_logout_library : Library :=
  { quiet_library with logout_result := 1 }

/-- A library that refuses to create the session. -/
def rejecting_init_library : Library :=
  { quiet_library with init_result := 1 }

/-- A library that creates the session and refuses the login request. -/
def rejecting_login_library : Library :=
  { quiet_library with login_result := 1 }

/-- Command line used in the examples. -/
def sample_argv : List String := ["simple", "user", "secret"]

/-- A library whose first `sp_session_process_events` call reports a successful
login and then the completed logout. -/
def immediate_logout_library : Library :=
  { quiet_library with
    during_process_events := fun k =>
      if k = 0 then [Callback.logged_in SP_ERROR_OK, Callback.logged_out] else [] }

/-- A library that reports the completed logout inside the 15th
`sp_session_process_events` call. -/
def logout_in_pass_15_library : Library :=
  { quiet_library with
    during_process_events := fun k => if k = 14 then [Callback.logged_out] else [] }

/-- A library that reports the completed logout inside the third
`sp_session_process_events` call. -/
def logout_in_pass_3_library : Library :=
  { quiet_library with
    during_process_events := fun k => if k = 2 then [Callback.logged_out] else [] }

/-- Actions a callback performs besides being invoked (used to describe traces). -/
def hook_events : Callback → List Event
  | Callback.logged_in error =>
    if SP_ERROR_OK ≠ error then [] else [Event.sp_session_user, Event.session_ready]
  | Callback.notify_main_thread => [Event.wake]
  | _ => []

/-- Trace contribution of a sequence of callback invocations. -/
def callback_events : List Callback → List Event
  | [] => []
  | cb :: rest => Event.invoked cb :: (hook_events cb ++ callback_events rest)

/-- Value of `g_exit_code` after one callback, as a function of the value before. -/
def exit_after : Callback → Int → Int
  | Callback.connection_error _, _ => 5
  | Callback.logged_in error, g => if SP_ERROR_OK ≠ error then 4 else g
  | Callback.logged_out, g => if g < 0 then 0 else g
  | _, g => g

/-- Value of `g_exit_code` after a sequence of callbacks. -/
def exit_after_all : List Callback → Int → Int
  | [], g => g
  | cb :: rest, g => exit_after_all rest (exit_after cb g)

/-- Trace property: after an invocation of `logged_out` there is
no `sp_session_process_events` call, and a `sp_session_logout` call only when
the invocation came in the 15th pass. -/
def quiet_after_logged_out (trace : List Event) : Prop :=
  ∀ front back : List Event, trace = front ++ Event.invoked Callback.logged_out :: back →
    Event.sp_session_process_events ∉ back ∧
    (front.count Event.sp_session_process_events ≠ 15 → Event.sp_session_logout ∉ back)

/-- Invariant of `loop` after `n` passes, for the property `quiet_after_logged_out`. -/
def logout_invariant (n : Nat) (s : LoopState) : Prop :=
  (s.world.g_exit_code < 0 →
    Event.invoked Callback.logged_out ∉ s.world.trace ∧
    s.world.trace.count Event.sp_session_process_events = n ∧ s.i = n) ∧
  quiet_after_logged_out s.world.trace

/-! ### The wake mechanism

`notify_main_thread` posts the wake and `loop` waits for it.  On the POSIX
build the wake is the signal `SIGIO` sent with `pthread_kill`; `main` installs
the handler `sigIgn`, and each pass of `loop` runs
`pthread_sigmask(SIG_BLOCK)`, `sp_session_process_events`,
`pthread_sigmask(SIG_UNBLOCK)`, `usleep`.  On the Windows build the wake is
`PulseEvent` on the auto-reset event made by `CreateEvent(NULL, FALSE, FALSE, NULL)`
and the wait is `WaitForSingleObject`.  The operating-system calls follow their
documented behaviour: a blocked signal stays pending and is delivered when it
is unblocked, a handler that runs during `usleep` ends the sleep, and
`PulseEvent` releases a thread that is waiting and otherwise leaves the event
non-signalled. -/

/-- Outcome of the wait of one pass: ended early by a wake, or the full interval slept. -/
inductive WaitResult where
  | woken
  | timed_out
  deriving DecidableEq, Repr

/-- POSIX build: state of `SIGIO` for the main thread. -/
structure SignalState where
  /-- The signal is in the signal mask of the main thread. -/
  blocked : Bool
  /-- The signal is pending. -/
  pending : Bool
  /-- The main thread is inside `usleep`. -/
  sleeping : Bool
  /-- The sleep in progress was ended by a handler. -/
  interrupted : Bool
  /-- Number of runs of the handler `sigIgn`. -/
  handled : Nat
  deriving DecidableEq, Repr

/-- Signal state when `loop` is entered: nothing blocked, nothing pending. -/
def SignalState.start : SignalState :=
  { blocked := false, pending := false, sleeping := false, interrupted := false, handled := 0 }

/-- Handler `sigIgn`: a debug line only; its runs are counted. -/
def sigIgn (σ : SignalState) : SignalState :=
  { σ with handled := σ.handled + 1 }

/-- Delivery of the signal: the handler runs, and a sleep in progress ends. -/
def deliver (σ : SignalState) : SignalState :=
  let σ1 := sigIgn { σ with pending := false }
  if σ.sleeping then { σ1 with interrupted := true } else σ1

/-- Call `pthread_kill(g_main_thread, SIGIO)`: pending while blocked, delivered otherwise. -/
def pthread_kill (σ : SignalState) : SignalState :=
  if σ.blocked then { σ with pending := true } else deliver σ

/-- Call `pthread_sigmask(SIG_BLOCK, &sigset, NULL)`. -/
def pthread_sigmask_block (σ : SignalState) : SignalState :=
  { σ with blocked := true }

/-- Call `pthread_sigmask(SIG_UNBLOCK, &sigset, NULL)`: a pending signal is
delivered before the call returns. -/
def pthread_sigmask_unblock (σ : SignalState) : SignalState :=
  if σ.pending then deliver { σ with blocked := false } else { σ with blocked := false }

/-- POSIX build: effect of a sequence of callbacks on the signal state; only
`notify_main_thread` touches it, by `pthread_kill`. -/
def callbacks_posix : List Callback → SignalState → SignalState
  | [], σ => σ
  | Callback.notify_main_thread :: rest, σ => callbacks_posix rest (pthread_kill σ)
  | _ :: rest, σ => callbacks_posix rest σ

/-- Call `usleep(timeout * 1000)` while the callbacks `during` are invoked. -/
def usleep (during : List Callback) (σ : SignalState) : SignalState × WaitResult :=
  let σ1 := callbacks_posix during { σ with sleeping := true, interrupted := false }
  ({ σ1 with sleeping := false },
    if σ1.interrupted then WaitResult.woken else WaitResult.timed_out)

/-- POSIX build, one pass of `loop` up to the end of the wait.  The callbacks are
those invoked inside `sp_session_process_events`, between its return and the
unblocking, between the unblocking and the start of `usleep`, and during
`usleep`. -/
def wait_posix (inside before_unblock before_sleep during : List Callback)
    (σ : SignalState) : SignalState × WaitResult :=
  let σ1 := pthread_sigmask_block σ
  let σ2 := callbacks_posix inside σ1
  let σ3 := callbacks_posix before_unblock σ2
  let σ4 := pthread_sigmask_unblock σ3
  let σ5 := callbacks_posix before_sleep σ4
  usleep during σ5

/-- Windows build: state of the event object `notifyEvent`. -/
structure EventState where
  /-- The event is signalled. -/
  signaled : Bool
  /-- The main thread is inside `WaitForSingleObject`. -/
  waiting : Bool
  /-- The waiting thread has been released. -/
  released : Bool
  deriving DecidableEq, Repr

/-- Call `CreateEvent(NULL, FALSE, FALSE, NULL)`: auto-reset, not signalled. -/
def CreateEvent : EventState :=
  { signaled := false, waiting := false, released := false }

/-- Call `PulseEvent(notifyEvent)`: releases a waiting thread, and leaves the
event non-signalled in every case. -/
def PulseEvent (e : EventState) : EventState :=
  if e.waiting then { signaled := false, waiting := false, released := true }
  else { e with signaled := false }

/-- Windows build: effect of a sequence of callbacks on the event; only
`notify_main_thread` touches it, by `PulseEvent`. -/
def callbacks_win32 : List Callback → EventState → EventState
  | [], e => e
  | Callback.notify_main_thread :: rest, e => callbacks_win32 rest (PulseEvent e)
  | _ :: rest, e => callbacks_win32 rest e

/-- Call `WaitForSingleObject(notifyEvent, timeout)` while the callbacks
`during` are invoked. -/
def WaitForSingleObject (during : List Callback) (e : EventState) :
    EventState × WaitResult :=
  if e.signaled then
    ({ signaled := false, waiting := false, released := false }, WaitResult.woken)
  else
    let e1 := callbacks_win32 during { e with waiting := true, released := false }
    ({ e1 with waiting := false, released := false },
      if e1.released then WaitResult.woken else WaitResult.timed_out)

/-- Windows build, one pass of `loop` up to the end of the wait. -/
def wait_win32 (inside before_wait during : List Callback) (e : EventState) :
    EventState × WaitResult :=
  let e1 := callbacks_win32 inside e
  let e2 := callbacks_win32 before_wait e1
  WaitForSingleObject during e2

/-- A library that posts one wake inside the first `sp_session_process_events`
call and reports an interval of 5000 ms. -/
def wake_in_poll_library : Library :=
  { quiet_library with
    during_process_events := fun k => if k = 0 then [Callback.notify_main_thread] else [],
    next_timeout := fun _ => 5000 }

/-! ## Basic facts about the callbacks -/

@[simp]
theorem emit_g_exit_code (e : Event) (w : World) :
    (emit e w).g_exit_code = w.g_exit_code := rfl

@[simp]
theorem emit_trace (e : Event) (w : World) :
    (emit e w).trace = w.trace ++ [e] := rfl

theorem dispatch_g_exit_code (cb : Callback) (w : World) :
    (dispatch cb w).g_exit_code = exit_after cb w.g_exit_code := by
  cases cb <;>
    simp [dispatch, exit_after, connection_error, logged_in, logged_out, notify_main_thread,
      log_message, metadata_updated, session_ready]
  all_goals split <;> simp

theorem dispatch_trace (cb : Callback) (w : World) :
    (dispatch cb w).trace = w.trace ++ Event.invoked cb :: hook_events cb := by
  cases cb <;>
    simp [dispatch, hook_events, connection_error, logged_in, logged_out, notify_main_thread,
      log_message, metadata_updated, session_ready]
  all_goals split <;> simp

theorem dispatch_all_g_exit_code (cbs : List Callback) (w : World) :
    (dispatch_all cbs w).g_exit_code = exit_after_all cbs w.g_exit_code := by
  induction cbs generalizing w with
  | nil => rfl
  | cons cb rest ih => simp [dispatch_all, exit_after_all, ih, dispatch_g_exit_code]

theorem dispatch_all_trace (cbs : List Callback) (w : World) :
    (dispatch_all cbs w).trace = w.trace ++ callback_events cbs := by
  induction cbs generalizing w with
  | nil => simp [dispatch_all, callback_events]
  | cons cb rest ih => simp [dispatch_all, callback_events, ih, dispatch_trace]

theorem dispatch_all_append (xs ys : List Callback) (w : World) :
    dispatch_all (xs ++ ys) w = dispatch_all ys (dispatch_all xs w) := by
  induction xs generalizing w with
  | nil => rfl
  | cons cb rest ih => simp [dispatch_all, ih]

theorem exit_after_of_not_terminal {cb : Callback} (h : cb.terminal = false) (g : Int) :
    exit_after cb g = g := by
  cases cb <;> simp_all [Callback.terminal, Callback.stores_failure, exit_after]

theorem exit_after_nonneg (cb : Callback) {g : Int} (h : 0 ≤ g) : 0 ≤ exit_after cb g := by
  cases cb <;> simp only [exit_after] <;> try split
  all_goals omega

theorem exit_after_neg {cb : Callback} {g : Int} (h : exit_after cb g < 0) :
    cb.terminal = false ∧ exit_after cb g = g := by
  cases cb <;> simp_all [Callback.terminal, Callback.stores_failure, exit_after]
  all_goals (try split at h) <;> (try omega) <;> simp_all

theorem exit_after_all_nonneg (cbs : List Callback) {g : Int} (h : 0 ≤ g) :
    0 ≤ exit_after_all cbs g := by
  induction cbs generalizing g with
  | nil => exact h
  | cons cb rest ih => exact ih (exit_after_nonneg cb h)

theorem exit_after_all_neg {cbs : List Callback} {g : Int} (h : exit_after_all cbs g < 0) :
    (∀ cb ∈ cbs, cb.terminal = false) ∧ exit_after_all cbs g = g := by
  induction cbs generalizing g with
  | nil => exact ⟨by simp, rfl⟩
  | cons cb rest ih =>
    simp only [exit_after_all] at h ⊢
    obtain ⟨h1, h2⟩ := ih h
    have h3 : exit_after cb g < 0 := by omega
    obtain ⟨h4, h5⟩ := exit_after_neg h3
    refine ⟨?_, by omega⟩
    intro c hc
    rcases List.mem_cons.1 hc with rfl | hc
    · exact h4
    · exact h1 c hc

theorem exit_after_all_of_not_terminal {cbs : List Callback}
    (h : ∀ cb ∈ cbs, cb.terminal = false) (g : Int) : exit_after_all cbs g = g := by
  induction cbs generalizing g with
  | nil => rfl
  | cons cb rest ih =>
    simp only [exit_after_all]
    rw [exit_after_of_not_terminal (h cb (List.mem_cons_self _ _))]
    exact ih (fun c hc => h c (List.mem_cons_of_mem _ hc)) g

theorem mem_callback_events {e : Event} {cbs : List Callback} (h : e ∈ callback_events cbs) :
    (∃ cb ∈ cbs, e = Event.invoked cb) ∨ e = Event.sp_session_user ∨ e = Event.session_ready
      ∨ e = Event.wake := by
  induction cbs with
  | nil => simp [callback_events] at h
  | cons cb rest ih =>
    simp only [callback_events, List.mem_cons, List.mem_append] at h
    rcases h with rfl | h | h
    · exact Or.inl ⟨cb, List.mem_cons_self _ _, rfl⟩
    · right
      cases cb <;> simp [hook_events] at h
      · rcases h.2 with h | h
        · exact Or.inl h
        · exact Or.inr (Or.inl h)
      · exact Or.inr (Or.inr h)
    · rcases ih h with ⟨c, hc, rfl⟩ | h
      · exact Or.inl ⟨c, List.mem_cons_of_mem _ hc, rfl⟩
      · exact Or.inr h

theorem process_events_not_mem_callback_events (cbs : List Callback) :
    Event.sp_session_process_events ∉ callback_events cbs := by
  intro h
  rcases mem_callback_events h with ⟨_, _, h⟩ | h | h | h <;> cases h

theorem logout_not_mem_callback_events (cbs : List Callback) :
    Event.sp_session_logout ∉ callback_events cbs := by
  intro h
  rcases mem_callback_events h with ⟨_, _, h⟩ | h | h | h <;> cases h

/-! ## Basic facts about one pass of the loop -/

theorem wrap32_succ {a : Int} (h0 : 0 ≤ a) (h1 : a + 1 < 2 ^ 31) : wrap32 (a + 1) = a + 1 := by
  unfold wrap32
  omega

theorem iteration_flag (lib : Library) (s : LoopState) :
    (iteration lib s).2 = decide (wrap32 (s.i + 1) = 15 ∧ SP_ERROR_OK ≠ lib.logout_result) := by
  unfold iteration
  by_cases h1 : wrap32 (s.i + 1) = 15 <;> by_cases h2 : SP_ERROR_OK = lib.logout_result <;>
    simp [h1, h2]

theorem iteration_g_exit_code (lib : Library) (s : LoopState) :
    (iteration lib s).1.world.g_exit_code =
      if wrap32 (s.i + 1) = 15 ∧ SP_ERROR_OK ≠ lib.logout_result then 5
      else exit_after_all (lib.during_wait s.polls)
        (exit_after_all (lib.during_process_events s.polls) s.world.g_exit_code) := by
  unfold iteration
  by_cases h1 : wrap32 (s.i + 1) = 15 <;> by_cases h2 : SP_ERROR_OK = lib.logout_result <;>
    simp [h1, h2, dispatch_all_g_exit_code]

theorem iteration_trace (lib : Library) (s : LoopState) :
    (iteration lib s).1.world.trace =
      s.world.trace ++ Event.sp_session_process_events ::
        (callback_events (lib.during_process_events s.polls) ++
          Event.wait (lib.next_timeout s.polls) ::
            (callback_events (lib.during_wait s.polls) ++
              if wrap32 (s.i + 1) = 15 then [Event.sp_session_logout] else [])) := by
  unfold iteration
  by_cases h1 : wrap32 (s.i + 1) = 15 <;> by_cases h2 : SP_ERROR_OK = lib.logout_result <;>
    simp [h1, h2, dispatch_all_trace]

theorem iteration_i (lib : Library) (s : LoopState) :
    (iteration lib s).1.i = wrap32 (s.i + 1) := by
  unfold iteration
  by_cases h1 : wrap32 (s.i + 1) = 15 <;> by_cases h2 : SP_ERROR_OK = lib.logout_result <;>
    simp [h1, h2]

theorem iteration_polls (lib : Library) (s : LoopState) :
    (iteration lib s).1.polls = s.polls + 1 := by
  unfold iteration
  by_cases h1 : wrap32 (s.i + 1) = 15 <;> by_cases h2 : SP_ERROR_OK = lib.logout_result <;>
    simp [h1, h2]

theorem iteration_returned_nonneg (lib : Library) (s : LoopState)
    (h : (iteration lib s).2 = true) : 0 ≤ (iteration lib s).1.world.g_exit_code := by
  rw [iteration_flag] at h
  rw [iteration_g_exit_code, if_pos (of_decide_eq_true h)]
  decide

theorem loop_of_nonneg (lib : Library) (n : Nat) (s : LoopState)
    (h : 0 ≤ s.world.g_exit_code) : loop lib n s = (s, true) := by
  cases n with
  | zero => simp [loop, h]
  | succ n => simp [loop, not_lt.2 h]

theorem loop_succ_of_neg (lib : Library) (n : Nat) (s : LoopState)
    (h : s.world.g_exit_code < 0) :
    loop lib (n + 1) s = loop lib n (iteration lib s).1 := by
  rw [loop, if_pos h]
  by_cases hr : (iteration lib s).2 = true
  · simp only [hr, if_true]
    rw [loop_of_nonneg lib n _ (iteration_returned_nonneg lib s hr)]
  · simp only [hr]
    rfl

theorem loop_one_of_neg (lib : Library) (s : LoopState) (h : s.world.g_exit_code < 0) :
    (loop lib 1 s).1 = (iteration lib s).1 := by
  rw [loop_succ_of_neg lib 0 s h]
  rfl

/-- Running one more pass: `n + 1` passes are `n` passes followed by one. -/
theorem loop_succ (lib : Library) (n : Nat) (s : LoopState) :
    loop lib (n + 1) s = loop lib 1 (loop lib n s).1 := by
  induction n generalizing s with
  | zero => rfl
  | succ n ih =>
    by_cases h : s.world.g_exit_code < 0
    · rw [loop_succ_of_neg lib (n + 1) s h, ih, loop_succ_of_neg lib n s h]
    · have h0 : 0 ≤ s.world.g_exit_code := not_lt.1 h
      rw [loop_of_nonneg lib _ s h0, loop_of_nonneg lib _ s h0, loop_of_nonneg lib _ s h0]

theorem not_terminal_of_keeps {cb : Callback}
    (h : ∀ w : World, w.g_exit_code < 0 → (dispatch cb w).g_exit_code = w.g_exit_code) :
    cb.terminal = false := by
  have h1 := h World.start (by decide)
  rw [dispatch_g_exit_code] at h1
  cases cb with
  | connection_error e => simp [exit_after, World.start] at h1
  | logged_in e =>
    by_cases he : SP_ERROR_OK = e
    · simp [Callback.terminal, Callback.stores_failure, he]
    · simp [exit_after, World.start, he] at h1
  | logged_out => simp [exit_after, World.start] at h1
  | notify_main_thread => rfl
  | log_message d => rfl
  | metadata_updated => rfl

theorem logged_out_not_mem_callback_events {cbs : List Callback}
    (h : ∀ cb ∈ cbs, cb.terminal = false) :
    Event.invoked Callback.logged_out ∉ callback_events cbs := by
  intro hmem
  rcases mem_callback_events hmem with ⟨cb, hcb, he⟩ | he | he | he
  · cases he
    have := h _ hcb
    simp [Callback.terminal] at this
  · cases he
  · cases he
  · cases he

theorem exit_after_all_zero {cbs : List Callback}
    (h : ∀ cb ∈ cbs, cb.stores_failure = false) : exit_after_all cbs 0 = 0 := by
  induction cbs with
  | nil => rfl
  | cons cb rest ih =>
    have hcb := h cb (List.mem_cons_self _ _)
    have h0 : exit_after cb 0 = 0 := by
      cases cb <;> simp_all [Callback.stores_failure, exit_after]
    simp only [exit_after_all, h0]
    exact ih (fun c hc => h c (List.mem_cons_of_mem _ hc))

theorem exit_after_all_logged_out {cbs : List Callback}
    (h : ∀ cb ∈ cbs, cb.stores_failure = false) (hout : Callback.logged_out ∈ cbs)
    {g : Int} (hg : g < 0) : exit_after_all cbs g = 0 := by
  induction cbs with
  | nil => simp at hout
  | cons cb rest ih =>
    have hrest : ∀ c ∈ rest, c.stores_failure = false :=
      fun c hc => h c (List.mem_cons_of_mem _ hc)
    by_cases hcb : cb = Callback.logged_out
    · subst hcb
      simp only [exit_after_all, exit_after, if_pos hg]
      exact exit_after_all_zero hrest
    · have hmem : Callback.logged_out ∈ rest := by
        rcases List.mem_cons.1 hout with h1 | h1
        · exact absurd h1.symm hcb
        · exact h1
      have hsf := h cb (List.mem_cons_self _ _)
      have hkeep : exit_after cb g = g := by
        apply exit_after_of_not_terminal
        cases cb <;> simp_all [Callback.terminal, Callback.stores_failure]
      simp only [exit_after_all, hkeep]
      exact ih hrest hmem

/-- Where a `logged_out` invocation can sit in the trace of one more pass, when
the trace before the pass has none. -/
theorem split_after_logged_out {old rest front back : List Event}
    (hold : Event.invoked Callback.logged_out ∉ old)
    (h : old ++ Event.sp_session_process_events :: rest =
      front ++ Event.invoked Callback.logged_out :: back) :
    ∃ a, front = old ++ Event.sp_session_process_events :: a ∧
      rest = a ++ Event.invoked Callback.logged_out :: back := by
  rcases List.append_eq_append_iff.1 h with ⟨a, ha, hb⟩ | ⟨c, hc, hd⟩
  · rcases List.cons_eq_append_iff.1 hb with ⟨_, hb2⟩ | ⟨a2, ha2, hb2⟩
    · cases hb2
    · exact ⟨a2, by rw [ha, ha2], hb2⟩
  · exfalso
    rcases List.cons_eq_append_iff.1 hd with ⟨_, hd2⟩ | ⟨c2, hc2, _⟩
    · cases hd2
    · apply hold
      rw [hc, hc2]
      simp

theorem logout_invariant_iteration (lib : Library) (n : Nat) (hn : n + 1 < 2 ^ 31)
    (s : LoopState) (hneg : s.world.g_exit_code < 0) (hinv : logout_invariant n s) :
    logout_invariant (n + 1) (iteration lib s).1 := by
  obtain ⟨hno, hcount, hi⟩ := hinv.1 hneg
  have hwrap : wrap32 (s.i + 1) = (n : Int) + 1 := by
    rw [hi]
    exact wrap32_succ (by omega) (by exact_mod_cast hn)
  constructor
  · intro hneg2
    rw [iteration_g_exit_code] at hneg2
    split at hneg2
    · omega
    · obtain ⟨hw, hw2⟩ := exit_after_all_neg hneg2
      rw [hw2] at hneg2
      obtain ⟨hp, _⟩ := exit_after_all_neg hneg2
      refine ⟨?_, ?_, ?_⟩
      · rw [iteration_trace]
        simp only [List.mem_append, List.mem_cons, not_or]
        refine ⟨hno, by simp, logged_out_not_mem_callback_events hp, by simp,
          logged_out_not_mem_callback_events hw, ?_⟩
        split <;> simp
      · rw [iteration_trace]
        simp only [List.count_append, List.count_cons, hcount,
          List.count_eq_zero.2 (process_events_not_mem_callback_events _)]
        split <;> simp
      · rw [iteration_i, hwrap]
        push_cast
        rfl
  · intro front back hsplit
    rw [iteration_trace] at hsplit
    obtain ⟨a, hfront, hrest⟩ := split_after_logged_out hno hsplit
    have hback : ∀ e ∈ back, e ∈ callback_events (lib.during_process_events s.polls) ++
        Event.wait (lib.next_timeout s.polls) ::
          (callback_events (lib.during_wait s.polls) ++
            if wrap32 (s.i + 1) = 15 then [Event.sp_session_logout] else []) := by
      intro e he
      rw [hrest]
      simp [he]
    have ha : ∀ e ∈ a, e ∈ callback_events (lib.during_process_events s.polls) ++
        Event.wait (lib.next_timeout s.polls) ::
          (callback_events (lib.during_wait s.polls) ++
            if wrap32 (s.i + 1) = 15 then [Event.sp_session_logout] else []) := by
      intro e he
      rw [hrest]
      simp [he]
    have hnope : ∀ l : List Event, (∀ e ∈ l,
        e ∈ callback_events (lib.during_process_events s.polls) ++
        Event.wait (lib.next_timeout s.polls) ::
          (callback_events (lib.during_wait s.polls) ++
            if wrap32 (s.i + 1) = 15 then [Event.sp_session_logout] else [])) →
        Event.sp_session_process_events ∉ l := by
      intro l hl hmem
      have := hl _ hmem
      simp only [List.mem_append, List.mem_cons] at this
      rcases this with h1 | h1 | h1 | h1
      · exact process_events_not_mem_callback_events _ h1
      · cases h1
      · exact process_events_not_mem_callback_events _ h1
      · split at h1 <;> simp at h1
    refine ⟨hnope back hback, ?_⟩
    intro hne hmem
    have := hback _ hmem
    simp only [List.mem_append, List.mem_cons] at this
    rcases this with h1 | h1 | h1 | h1
    · exact logout_not_mem_callback_events _ h1
    · cases h1
    · exact logout_not_mem_callback_events _ h1
    · apply hne
      rw [hfront]
      simp only [List.count_append, List.count_cons, hcount,
        List.count_eq_zero.2 (hnope a ha)]
      split at h1
      · rename_i h15
        rw [hwrap] at h15
        simp
        omega
      · simp at h1

theorem logout_invariant_loop (lib : Library) (g : Int) (n : Nat) (hn : n < 2 ^ 31) :
    logout_invariant n (loop lib n (loop_entry { g_exit_code := g, trace := [] })).1 := by
  induction n with
  | zero =>
    refine ⟨fun _ => ⟨by simp [loop, loop_entry], by simp [loop, loop_entry],
      by simp [loop, loop_entry]⟩, ?_⟩
    intro front back h
    simp [loop, loop_entry] at h
  | succ n ih =>
    have ih := ih (by omega)
    rw [loop_succ]
    by_cases hneg : (loop lib n (loop_entry { g_exit_code := g, trace := [] })).1.world.g_exit_code < 0
    · rw [loop_succ_of_neg lib 0 _ hneg]
      simp only [loop]
      exact logout_invariant_iteration lib n hn _ hneg ih
    · rw [loop_of_nonneg lib 1 _ (not_lt.1 hneg)]
      exact ⟨fun h => absurd h hneg, ih.2⟩

/-! ## Exit status and callbacks -/

/-- C1, evaluated at the failing input: starting from the unset status, a
`logged_in` failure stores 4 and a later `connection_error` replaces it by 5,
so the status changes value twice; the same happens inside `loop` when the
library delivers both callbacks in one `sp_session_process_events` call.  Also
`connection_error` after `logged_out` replaces 0 by 5. -/
theorem exit_status_overwritten_by_later_failure :
    (dispatch (Callback.logged_in 1) World.start).g_exit_code = 4 ∧
    (dispatch (Callback.connection_error 2)
      (dispatch (Callback.logged_in 1) World.start)).g_exit_code = 5 ∧
    (dispatch Callback.logged_out World.start).g_exit_code = 0 ∧
    (dispatch (Callback.connection_error 2)
      (dispatch Callback.logged_out World.start)).g_exit_code = 5 ∧
    (loop two_failures_library 1 (loop_entry World.start)).1.world.g_exit_code = 5 := by
  decide

/-- C2, evaluated at the failing input: when the first
`sp_session_process_events` call delivers `connection_error`, `loop` returns
with `g_exit_code = 5` and `main` returns 0. -/
theorem main_returns_zero_after_connection_error :
    (main network_failure_library 1 sample_argv).map (fun r => (r.1, r.2.g_exit_code))
      = some (0, 5) := by
  decide

/-- C3: `logged_out` stores 0 when the exit status is negative and leaves the
state untouched otherwise; and for every callback sequence in which
`connection_error` is followed by `logged_out` with only `log_message`,
`metadata_updated` or `notify_main_thread` in between, the exit status after
`logged_out` is 5, the value stored by `connection_error`, and not 0. -/
theorem logged_out_keeps_network_failure (w : World) (before between : List Callback)
    (error : sp_error)
    (h : ∀ cb ∈ between, (∃ data, cb = Callback.log_message data) ∨
      cb = Callback.metadata_updated ∨ cb = Callback.notify_main_thread) :
    (w.g_exit_code < 0 → (logged_out w).g_exit_code = 0) ∧
    (0 ≤ w.g_exit_code → logged_out w = w) ∧
    (connection_error error w).g_exit_code = 5 ∧
    (dispatch_all (before ++ [Callback.connection_error error] ++ between ++
      [Callback.logged_out]) w).g_exit_code = 5 ∧
    (dispatch_all (before ++ [Callback.connection_error error] ++ between ++
      [Callback.logged_out]) w).g_exit_code ≠ 0 := by
  have hb : ∀ cb ∈ between, cb.terminal = false := by
    intro cb hcb
    rcases h cb hcb with ⟨d, rfl⟩ | rfl | rfl <;> rfl
  have key : (dispatch_all (before ++ [Callback.connection_error error] ++ between ++
      [Callback.logged_out]) w).g_exit_code = 5 := by
    simp only [dispatch_all_append, dispatch_all_g_exit_code, exit_after_all, exit_after]
    rw [exit_after_all_of_not_terminal hb]
    decide
  refine ⟨?_, ?_, rfl, key, ?_⟩
  · intro hw
    simp [logged_out, hw]
  · intro hw
    simp [logged_out, not_lt.2 hw]
  · rw [key]
    decide

/-- Witness for C3: an authentication failure, then `connection_error`, a log
line, a wake and a metadata update, then `logged_out`. -/
theorem logged_out_keeps_network_failure_witness :
    (dispatch_all ([Callback.logged_in 1] ++ [Callback.connection_error 2] ++
      [Callback.log_message "x", Callback.notify_main_thread, Callback.metadata_updated] ++
      [Callback.logged_out]) World.start).g_exit_code = 5 :=
  (logged_out_keeps_network_failure World.start [Callback.logged_in 1]
    [Callback.log_message "x", Callback.notify_main_thread, Callback.metadata_updated] 2
    (by
      intro cb hcb
      simp only [List.mem_cons, List.mem_singleton, List.not_mem_nil, or_false] at hcb
      rcases hcb with rfl | rfl | rfl
      · exact Or.inl ⟨"x", rfl⟩
      · exact Or.inr (Or.inr rfl)
      · exact Or.inr (Or.inl rfl))).2.2.2.1

/-- C5: for every argument list the usage test accepts, when `sp_session_init`
reports an error `main` returns 2 after the single call `sp_session_init`
(no login, no event processing, no pass of `loop`, whatever the fuel); when
`sp_session_init` succeeds and `sp_session_login` reports an error `main`
returns 3 after exactly the two calls `sp_session_init` and
`sp_session_login`; and the two codes differ. -/
theorem setup_failures_are_fatal (lib : Library) (fuel : Nat) (argv : List String)
    (hargs : usage_error argv = false) :
    (SP_ERROR_OK ≠ lib.init_result →
      main lib fuel argv =
        some (2, { g_exit_code := -1, trace := [Event.sp_session_init] })) ∧
    (SP_ERROR_OK = lib.init_result → SP_ERROR_OK ≠ lib.login_result →
      main lib fuel argv =
        some (3, { g_exit_code := -1,
                   trace := [Event.sp_session_init,
                     Event.sp_session_login (argv.getD 1 "") (argv.getD 2 "")] })) ∧
    (∀ r2 r3 : Int × World, SP_ERROR_OK ≠ lib.init_result → main lib fuel argv = some r2 →
      ∀ lib3 : Library, SP_ERROR_OK = lib3.init_result → SP_ERROR_OK ≠ lib3.login_result →
        main lib3 fuel argv = some r3 → r2.1 ≠ r3.1) := by
  have h2 : SP_ERROR_OK ≠ lib.init_result →
      main lib fuel argv =
        some (2, { g_exit_code := -1, trace := [Event.sp_session_init] }) := by
    intro hinit
    simp [main, hargs, hinit, emit, World.start]
  have h3 : ∀ l : Library, SP_ERROR_OK = l.init_result → SP_ERROR_OK ≠ l.login_result →
      main l fuel argv =
        some (3, { g_exit_code := -1,
                   trace := [Event.sp_session_init,
                     Event.sp_session_login (argv.getD 1 "") (argv.getD 2 "")] }) := by
    intro l hinit hlogin
    simp [main, hargs, hinit.symm, hlogin, emit, World.start]
  refine ⟨h2, h3 lib, ?_⟩
  intro r2 r3 hinit hr2 lib3 hinit3 hlogin3 hr3
  rw [h2 hinit] at hr2
  rw [h3 lib3 hinit3 hlogin3] at hr3
  cases hr2
  cases hr3
  show (2 : Int) ≠ 3
  decide

/-- Witness for C5: a library that refuses the session, and one that refuses
the login, on the command line `simple user secret`. -/
theorem setup_failures_are_fatal_witness :
    main rejecting_init_library 0 sample_argv =
        some (2, { g_exit_code := -1, trace := [Event.sp_session_init] }) ∧
    main rejecting_login_library 0 sample_argv =
        some (3, { g_exit_code := -1,
                   trace := [Event.sp_session_init, Event.sp_session_login "user" "secret"] }) :=
  ⟨(setup_failures_are_fatal rejecting_init_library 0 sample_argv (by decide)).1 (by decide),
   (setup_failures_are_fatal rejecting_login_library 0 sample_argv (by decide)).2.1
     (by decide) (by decide)⟩

/-- C6, evaluated at the failing input: when the logout request of the 15th
pass is refused, `loop` returns with `g_exit_code = 5`, the very value
`connection_error` stores. -/
theorem logout_failure_code_equals_network_failure_code :
    (loop failing_logout_library 14 (loop_entry World.start)).2 = false ∧
    (loop failing_logout_library 15 (loop_entry World.start)).2 = true ∧
    (loop failing_logout_library 15 (loop_entry World.start)).1.world.g_exit_code = 5 ∧
    (connection_error 1 World.start).g_exit_code = 5 := by
  decide

/-- C9: `log_message`, `metadata_updated`, `notify_main_thread` and `logged_in`
with `SP_ERROR_OK` leave `g_exit_code` as it was, for every state and
argument; a callback that changes it is `connection_error`, `logged_in` with an
error, or `logged_out`; and a pass of `loop` that changes it either received
one of these three callbacks, or it is the pass in which `++i == 15` holds, the
logout request was issued as the last action of the pass and refused, and the
pass stored 5 and executed `return`. -/
theorem non_terminal_events_keep_exit_status (w : World) (data : String) (lib : Library)
    (s : LoopState) :
    (log_message data w).g_exit_code = w.g_exit_code ∧
    (metadata_updated w).g_exit_code = w.g_exit_code ∧
    (notify_main_thread w).g_exit_code = w.g_exit_code ∧
    (logged_in SP_ERROR_OK w).g_exit_code = w.g_exit_code ∧
    (dispatch (Callback.log_message data) w).g_exit_code = w.g_exit_code ∧
    (dispatch Callback.metadata_updated w).g_exit_code = w.g_exit_code ∧
    (dispatch Callback.notify_main_thread w).g_exit_code = w.g_exit_code ∧
    (dispatch (Callback.logged_in SP_ERROR_OK) w).g_exit_code = w.g_exit_code ∧
    (∀ cb : Callback, (dispatch cb w).g_exit_code = w.g_exit_code ∨
      (∃ error, cb = Callback.connection_error error) ∨
      (∃ error, cb = Callback.logged_in error ∧ SP_ERROR_OK ≠ error) ∨
      cb = Callback.logged_out) ∧
    ((iteration lib s).1.world.g_exit_code = s.world.g_exit_code ∨
      (∃ cb, (cb ∈ lib.during_process_events s.polls ∨ cb ∈ lib.during_wait s.polls) ∧
        ((∃ error, cb = Callback.connection_error error) ∨
         (∃ error, cb = Callback.logged_in error ∧ SP_ERROR_OK ≠ error) ∨
         cb = Callback.logged_out)) ∨
      (wrap32 (s.i + 1) = 15 ∧ SP_ERROR_OK ≠ lib.logout_result ∧
        (iteration lib s).2 = true ∧
        (iteration lib s).1.world.g_exit_code = 5 ∧
        (iteration lib s).1.world.trace =
          (dispatch_all (lib.during_wait s.polls)
            (emit (Event.wait (lib.next_timeout s.polls))
              (dispatch_all (lib.during_process_events s.polls)
                (emit Event.sp_session_process_events s.world)))).trace ++
            [Event.sp_session_logout])) := by
  refine ⟨rfl, rfl, rfl, ?_, ?_, ?_, ?_, ?_, ?_, ?_⟩
  · simp [logged_in, session_ready]
  · rw [dispatch_g_exit_code]; rfl
  · rw [dispatch_g_exit_code]; rfl
  · rw [dispatch_g_exit_code]; rfl
  · rw [dispatch_g_exit_code]; simp [exit_after]
  · intro cb
    rw [dispatch_g_exit_code]
    cases cb with
    | connection_error e => exact Or.inr (Or.inl ⟨e, rfl⟩)
    | logged_in e =>
      by_cases he : SP_ERROR_OK = e
      · left; simp [exit_after, he]
      · exact Or.inr (Or.inr (Or.inl ⟨e, rfl, he⟩))
    | logged_out => exact Or.inr (Or.inr (Or.inr rfl))
    | notify_main_thread => exact Or.inl rfl
    | log_message d => exact Or.inl rfl
    | metadata_updated => exact Or.inl rfl
  · by_cases hl : wrap32 (s.i + 1) = 15 ∧ SP_ERROR_OK ≠ lib.logout_result
    · right; right
      refine ⟨hl.1, hl.2, ?_, ?_, ?_⟩
      · rw [iteration_flag]
        exact decide_eq_true hl
      · rw [iteration_g_exit_code, if_pos hl]
      · rw [iteration_trace, if_pos hl.1]
        simp [dispatch_all_trace]
    · by_cases hq : ∀ cb, (cb ∈ lib.during_process_events s.polls ∨
          cb ∈ lib.during_wait s.polls) → cb.terminal = false
      · left
        rw [iteration_g_exit_code, if_neg hl,
          exit_after_all_of_not_terminal (fun cb hcb => hq cb (Or.inl hcb)),
          exit_after_all_of_not_terminal (fun cb hcb => hq cb (Or.inr hcb))]
      · right; left
        push_neg at hq
        obtain ⟨cb, hcb, ht⟩ := hq
        refine ⟨cb, hcb, ?_⟩
        cases cb with
        | connection_error e => exact Or.inl ⟨e, rfl⟩
        | logged_in e =>
          by_cases he : SP_ERROR_OK = e
          · simp [Callback.terminal, Callback.stores_failure, he] at ht
          · exact Or.inr (Or.inl ⟨e, rfl, he⟩)
        | logged_out => exact Or.inr (Or.inr rfl)
        | notify_main_thread => simp [Callback.terminal, Callback.stores_failure] at ht
        | log_message d => simp [Callback.terminal, Callback.stores_failure] at ht
        | metadata_updated => simp [Callback.terminal, Callback.stores_failure] at ht

/-! ## The loop -/

/-- State of `loop` after `n` passes while no callback touches the exit status
and the logout request is accepted. -/
theorem loop_quiet (lib : Library) (n : Nat) (hn : n < 2 ^ 31)
    (hlogout : lib.logout_result = SP_ERROR_OK)
    (hquiet : ∀ k cb, (cb ∈ lib.during_process_events k ∨ cb ∈ lib.during_wait k) →
      cb.terminal = false) :
    (loop lib n (loop_entry World.start)).2 = false ∧
    (loop lib n (loop_entry World.start)).1.world.g_exit_code = -1 ∧
    (loop lib n (loop_entry World.start)).1.i = n ∧
    (loop lib n (loop_entry World.start)).1.polls = n ∧
    (loop lib n (loop_entry World.start)).1.world.trace.count Event.sp_session_process_events
      = n ∧
    (loop lib n (loop_entry World.start)).1.world.trace.count Event.sp_session_logout
      = if n < 15 then 0 else 1 := by
  induction n with
  | zero => simp [loop, loop_entry, World.start]
  | succ n ih =>
    obtain ⟨_, hg, hi, hp, hcpe, hclo⟩ := ih (by omega)
    have hneg : (loop lib n (loop_entry World.start)).1.world.g_exit_code < 0 := by
      rw [hg]; decide
    have hwrap : wrap32 ((loop lib n (loop_entry World.start)).1.i + 1) = (n : Int) + 1 := by
      rw [hi]
      exact wrap32_succ (by omega) (by exact_mod_cast hn)
    have hgnew : (iteration lib (loop lib n (loop_entry World.start)).1).1.world.g_exit_code
        = -1 := by
      rw [iteration_g_exit_code, if_neg (by simp [hlogout]),
        exit_after_all_of_not_terminal (fun cb hcb => hquiet _ cb (Or.inl hcb)),
        exit_after_all_of_not_terminal (fun cb hcb => hquiet _ cb (Or.inr hcb)), hg]
    rw [loop_succ, loop_succ_of_neg lib 0 _ hneg]
    simp only [loop]
    refine ⟨by simp [hgnew], hgnew, ?_, ?_, ?_, ?_⟩
    · rw [iteration_i, hwrap]
      push_cast
      rfl
    · rw [iteration_polls, hp]
    · rw [iteration_trace]
      simp only [List.count_append, List.count_cons, hcpe,
        List.count_eq_zero.2 (process_events_not_mem_callback_events _)]
      split <;> simp
    · rw [iteration_trace, hwrap]
      simp only [List.count_append, List.count_cons, hclo,
        List.count_eq_zero.2 (logout_not_mem_callback_events _)]
      by_cases h15 : (n : Int) + 1 = 15
      · have : n = 14 := by omega
        subst this
        simp
      · have : n ≠ 14 := by omega
        simp only [h15, if_false]
        by_cases hlt : n < 15
        · have : n + 1 < 15 := by omega
          simp [hlt, this]
        · have : ¬ n + 1 < 15 := by omega
          simp [hlt, this]

/-- C4: in a run of `loop` where every callback the library invokes leaves an
unset exit status unset and the logout request is accepted, for every `n < 2^31` the loop is still running after
`n` passes, it has made `n` calls of `sp_session_process_events`, and it has
issued no `sp_session_logout` request when `n < 15` and exactly one when
`n ≥ 15`; that request is the last action of the 15th pass, after the pass's
`sp_session_process_events` call and its wait. -/
theorem logout_requested_once_in_pass_15 (lib : Library) (n : Nat) (hn : n < 2 ^ 31)
    (hlogout : lib.logout_result = SP_ERROR_OK)
    (hquiet : ∀ k cb, (cb ∈ lib.during_process_events k ∨ cb ∈ lib.during_wait k) →
      ∀ w : World, w.g_exit_code < 0 → (dispatch cb w).g_exit_code = w.g_exit_code) :
    (loop lib n (loop_entry World.start)).2 = false ∧
    (loop lib n (loop_entry World.start)).1.world.trace.count Event.sp_session_process_events
      = n ∧
    (loop lib n (loop_entry World.start)).1.world.trace.count Event.sp_session_logout
      = (if n < 15 then 0 else 1) ∧
    (loop lib 15 (loop_entry World.start)).1.world =
      emit Event.sp_session_logout
        (dispatch_all (lib.during_wait 14)
          (emit (Event.wait (lib.next_timeout 14))
            (dispatch_all (lib.during_process_events 14)
              (emit Event.sp_session_process_events
                (loop lib 14 (loop_entry World.start)).1.world)))) := by
  have hq : ∀ k cb, (cb ∈ lib.during_process_events k ∨ cb ∈ lib.during_wait k) →
      cb.terminal = false := fun k cb hcb => not_terminal_of_keeps (hquiet k cb hcb)
  obtain ⟨h1, _, _, _, h5, h6⟩ := loop_quiet lib n hn hlogout hq
  refine ⟨h1, h5, h6, ?_⟩
  obtain ⟨_, hg, hi, hp, _, _⟩ := loop_quiet lib 14 (by norm_num) hlogout hq
  have h15 : loop lib 15 (loop_entry World.start) =
      loop lib 1 (loop lib 14 (loop_entry World.start)).1 := loop_succ lib 14 _
  rw [h15]
  generalize (loop lib 14 (loop_entry World.start)).1 = s at hg hi hp
  have hneg : s.world.g_exit_code < 0 := by
    rw [hg]; decide
  rw [loop_one_of_neg lib s hneg]
  have hw : wrap32 ((14 : Int) + 1) = 15 := by decide
  have hi2 : s.i = 14 := by simpa using hi
  unfold iteration
  simp only [hi2, hp, hw, if_true, hlogout, ne_eq, not_true_eq_false, if_false]

/-- Witness for C4: the library that never invokes a callback, after 20 passes. -/
theorem logout_requested_once_in_pass_15_witness :
    (loop quiet_library 20 (loop_entry World.start)).2 = false ∧
    (loop quiet_library 20 (loop_entry World.start)).1.world.trace.count
      Event.sp_session_process_events = 20 ∧
    (loop quiet_library 20 (loop_entry World.start)).1.world.trace.count
      Event.sp_session_logout = 1 :=
  have h := logout_requested_once_in_pass_15 quiet_library 20 (by norm_num) rfl
    (by intro k cb hcb; simp [quiet_library] at hcb)
  ⟨h.1, h.2.1, h.2.2.1⟩

/-- C7 fails as stated: when `logged_out` is invoked inside the 15th
`sp_session_process_events` call, the loop still waits and then calls
`sp_session_logout` on the session. -/
theorem logout_requested_after_logged_out_in_pass_15 :
    (loop logout_in_pass_15_library 15 (loop_entry World.start)).1.world.trace =
      (loop logout_in_pass_15_library 14 (loop_entry World.start)).1.world.trace ++
        [Event.sp_session_process_events, Event.invoked Callback.logged_out,
         Event.wait 100, Event.sp_session_logout] ∧
    ((loop logout_in_pass_15_library 14 (loop_entry World.start)).1.world.trace ++
        [Event.sp_session_process_events]).count Event.sp_session_process_events = 15 ∧
    Event.invoked Callback.logged_out ∉
      (loop logout_in_pass_15_library 14 (loop_entry World.start)).1.world.trace := by
  decide

/-- C7 as amended: in every run of `loop` of fewer than `2^31` passes, after
an invocation of `logged_out` the loop makes no further
`sp_session_process_events` call, and it makes no `sp_session_logout` call
either unless the invocation came in the 15th pass (15 calls of
`sp_session_process_events` precede it). -/
theorem no_session_call_after_logged_out (lib : Library) (g : Int) (n : Nat)
    (hn : n < 2 ^ 31) (front back : List Event)
    (hsplit : (loop lib n (loop_entry { g_exit_code := g, trace := [] })).1.world.trace =
      front ++ Event.invoked Callback.logged_out :: back) :
    Event.sp_session_process_events ∉ back ∧
    (front.count Event.sp_session_process_events ≠ 15 → Event.sp_session_logout ∉ back) :=
  (logout_invariant_loop lib g n hn).2 front back hsplit

/-- Witness for C7 as amended: `logged_out` invoked inside the third
`sp_session_process_events` call; only the wait follows. -/
theorem no_session_call_after_logged_out_witness :
    (loop logout_in_pass_3_library 40 (loop_entry { g_exit_code := -1, trace := [] })).1.world.trace
      = [Event.sp_session_process_events, Event.wait 100, Event.sp_session_process_events,
         Event.wait 100, Event.sp_session_process_events] ++
        Event.invoked Callback.logged_out :: [Event.wait 100] ∧
    Event.sp_session_process_events ∉ [Event.wait 100] ∧
    (([Event.sp_session_process_events, Event.wait 100, Event.sp_session_process_events,
       Event.wait 100, Event.sp_session_process_events] : List Event).count
        Event.sp_session_process_events ≠ 15 →
      Event.sp_session_logout ∉ [Event.wait 100]) :=
  ⟨by decide,
   no_session_call_after_logged_out logout_in_pass_3_library (-1) 40 (by norm_num)
    [Event.sp_session_process_events, Event.wait 100, Event.sp_session_process_events,
     Event.wait 100, Event.sp_session_process_events]
    [Event.wait 100] (by decide)⟩

/-- C8: when the usage test, `sp_session_init` and `sp_session_login` succeed
and `logged_out` is invoked inside the first `sp_session_process_events` call
while no callback of that pass stores a failure, then for every positive fuel
`loop` returns after exactly one pass (one `sp_session_process_events` call, no
`sp_session_logout`), the exit status is 0 and `main` returns 0. -/
theorem immediate_logout_exits_with_success (lib : Library) (fuel : Nat) (argv : List String)
    (hargs : usage_error argv = false)
    (hinit : lib.init_result = SP_ERROR_OK) (hlogin : lib.login_result = SP_ERROR_OK)
    (hout : Callback.logged_out ∈ lib.during_process_events 0)
    (hother : ∀ cb, (cb ∈ lib.during_process_events 0 ∨ cb ∈ lib.during_wait 0) →
      cb.stores_failure = false) :
    ∃ w : World,
      main lib (fuel + 1) argv = some (0, w) ∧
      w.g_exit_code = 0 ∧
      w.trace.count Event.sp_session_process_events = 1 ∧
      w.trace.count Event.sp_session_logout = 0 ∧
      loop lib (fuel + 1) (loop_entry (emit (Event.sp_session_login (argv.getD 1 "")
          (argv.getD 2 "")) (emit Event.sp_session_init World.start))) =
        ((iteration lib (loop_entry (emit (Event.sp_session_login (argv.getD 1 "")
          (argv.getD 2 "")) (emit Event.sp_session_init World.start)))).1, true) := by
  set s0 := loop_entry (emit (Event.sp_session_login (argv.getD 1 "")
          (argv.getD 2 "")) (emit Event.sp_session_init World.start)) with hs0
  have hneg : s0.world.g_exit_code < 0 := by simp [hs0, loop_entry, World.start]
  have hw : wrap32 (s0.i + 1) = 1 := by simp [hs0, loop_entry]; decide
  have hg1 : (iteration lib s0).1.world.g_exit_code = 0 := by
    rw [iteration_g_exit_code, hw, if_neg (by simp)]
    have hp : s0.polls = 0 := rfl
    rw [hp, exit_after_all_logged_out (fun cb hcb => hother cb (Or.inl hcb)) hout hneg]
    exact exit_after_all_zero (fun cb hcb => hother cb (Or.inr hcb))
  have hloop : loop lib (fuel + 1) s0 = ((iteration lib s0).1, true) := by
    rw [loop_succ_of_neg lib fuel s0 hneg]
    exact loop_of_nonneg lib fuel _ (by rw [hg1])
  have htr : (iteration lib s0).1.world.trace =
      [Event.sp_session_init, Event.sp_session_login (argv.getD 1 "") (argv.getD 2 "")] ++
        Event.sp_session_process_events ::
        (callback_events (lib.during_process_events 0) ++
          Event.wait (lib.next_timeout 0) :: callback_events (lib.during_wait 0)) := by
    rw [iteration_trace, hw]
    simp [hs0, loop_entry, World.start]
  refine ⟨session_terminated (iteration lib s0).1.world, ?_, ?_, ?_, ?_, hloop⟩
  · simp only [main, hargs, hinit, hlogin, ne_eq, not_true_eq_false, if_false]
    rw [← hs0, hloop]
    simp
  · simpa [session_terminated] using hg1
  · simp only [session_terminated, emit_trace, htr, List.count_append, List.count_cons,
      List.count_eq_zero.2 (process_events_not_mem_callback_events _)]
    simp
  · simp only [session_terminated, emit_trace, htr, List.count_append, List.count_cons,
      List.count_eq_zero.2 (logout_not_mem_callback_events _)]
    simp

/-- Witness for C8: the library reports the login and the logout inside the
first `sp_session_process_events` call; `main` returns 0 with the exit status 0. -/
theorem immediate_logout_exits_with_success_witness :
    ∃ w : World,
      main immediate_logout_library (3 + 1) sample_argv = some (0, w) ∧
      w.g_exit_code = 0 ∧
      w.trace.count Event.sp_session_process_events = 1 ∧
      w.trace.count Event.sp_session_logout = 0 ∧
      loop immediate_logout_library (3 + 1) (loop_entry (emit (Event.sp_session_login
          (sample_argv.getD 1 "") (sample_argv.getD 2 "")) (emit Event.sp_session_init
            World.start))) =
        ((iteration immediate_logout_library (loop_entry (emit (Event.sp_session_login
          (sample_argv.getD 1 "") (sample_argv.getD 2 "")) (emit Event.sp_session_init
            World.start)))).1, true) :=
  immediate_logout_exits_with_success immediate_logout_library 3 sample_argv (by decide)
    rfl rfl (by decide) (by
      intro cb hcb
      simp [immediate_logout_library, quiet_library] at hcb
      rcases hcb with rfl | rfl <;> rfl)

/-! ## The wake mechanism -/

theorem callbacks_posix_blocked (cbs : List Callback) (σ : SignalState) :
    (callbacks_posix cbs σ).blocked = σ.blocked ∧
    (callbacks_posix cbs σ).sleeping = σ.sleeping := by
  induction cbs generalizing σ with
  | nil => exact ⟨rfl, rfl⟩
  | cons cb rest ih =>
    cases cb
    case notify_main_thread =>
      simp only [callbacks_posix]
      rw [(ih (pthread_kill σ)).1, (ih (pthread_kill σ)).2]
      simp only [pthread_kill, deliver, sigIgn]
      split <;> (try split) <;> exact ⟨rfl, rfl⟩
    all_goals
      simp only [callbacks_posix]
      exact ih σ

/-- POSIX build: during a sleep with the signal unblocked, the sleep is ended
exactly when a wake is posted. -/
theorem callbacks_posix_interrupted (cbs : List Callback) (σ : SignalState)
    (hb : σ.blocked = false) (hs : σ.sleeping = true) :
    (callbacks_posix cbs σ).interrupted =
      (σ.interrupted || decide (Callback.notify_main_thread ∈ cbs)) := by
  induction cbs generalizing σ with
  | nil => simp [callbacks_posix]
  | cons cb rest ih =>
    cases cb
    case notify_main_thread =>
      simp only [callbacks_posix]
      rw [ih]
      · simp [pthread_kill, deliver, sigIgn, hb, hs]
      · simp [pthread_kill, deliver, sigIgn, hb, hs]
      · simp [pthread_kill, deliver, sigIgn, hb, hs]
    all_goals
      simp only [callbacks_posix]
      rw [ih σ hb hs]
      simp

/-- POSIX build: with the signal unblocked, `usleep` ends early exactly when a
wake is posted while it sleeps. -/
theorem usleep_woken_iff (during : List Callback) (σ : SignalState)
    (hb : σ.blocked = false) :
    (usleep during σ).2 = WaitResult.woken ↔ Callback.notify_main_thread ∈ during := by
  have h := callbacks_posix_interrupted during
    { σ with sleeping := true, interrupted := false } hb rfl
  simp only [usleep, h]
  by_cases hm : Callback.notify_main_thread ∈ during <;> simp [hm]

theorem callbacks_win32_signaled (cbs : List Callback) (e : EventState)
    (h : e.signaled = false) : (callbacks_win32 cbs e).signaled = false := by
  induction cbs generalizing e with
  | nil => exact h
  | cons cb rest ih =>
    cases cb
    case notify_main_thread =>
      simp only [callbacks_win32]
      apply ih
      simp only [PulseEvent]
      split <;> rfl
    all_goals
      simp only [callbacks_win32]
      exact ih e h

/-- Windows build: a thread that waits, or has been released, is released at the
end exactly when it was released already or a wake is posted. -/
theorem callbacks_win32_released (cbs : List Callback) (e : EventState)
    (h : e.waiting = true ∨ e.released = true) :
    (callbacks_win32 cbs e).released =
      (e.released || decide (Callback.notify_main_thread ∈ cbs)) := by
  induction cbs generalizing e with
  | nil => simp [callbacks_win32]
  | cons cb rest ih =>
    cases cb
    case notify_main_thread =>
      simp only [callbacks_win32]
      rw [ih]
      · rcases h with h | h
        · simp [PulseEvent, h]
        · by_cases hw : e.waiting = true
          · simp [PulseEvent, hw]
          · simp [PulseEvent, hw, h]
      · rcases h with h | h
        · simp [PulseEvent, h]
        · by_cases hw : e.waiting = true
          · simp [PulseEvent, hw]
          · simp [PulseEvent, hw, h]
    all_goals
      simp only [callbacks_win32]
      rw [ih e h]
      simp

/-- C10, evaluated at the failing interleaving, and in general.  On both builds
the wait of a pass ends early exactly when a wake is posted during the wait
itself, whatever was posted before it began.  In particular, when the library
posts one wake inside the first `sp_session_process_events` call (the loop's
trace is poll, `notify_main_thread`, wake, wait 5000) and nothing during the
wait, the POSIX build runs `sigIgn` once at the unblocking, before `usleep`
starts, with nothing pending afterwards, and `usleep` sleeps the full interval;
the Windows build pulses an event nobody waits for and `WaitForSingleObject`
times out.  The same holds for a wake posted between the return of
`sp_session_process_events` and the start of the wait. -/
theorem wake_posted_before_wait_is_lost (inside before_unblock before_sleep during
    : List Callback) (σ : SignalState) :
    ((wait_posix inside before_unblock before_sleep during σ).2 = WaitResult.woken ↔
      Callback.notify_main_thread ∈ during) ∧
    ((wait_win32 inside before_unblock during CreateEvent).2 = WaitResult.woken ↔
      Callback.notify_main_thread ∈ during) ∧
    (loop wake_in_poll_library 1 (loop_entry World.start)).1.world.trace =
      [Event.sp_session_process_events, Event.invoked Callback.notify_main_thread,
       Event.wake, Event.wait 5000] ∧
    wait_posix (wake_in_poll_library.during_process_events 0) [] []
        (wake_in_poll_library.during_wait 0) SignalState.start =
      ({ blocked := false, pending := false, sleeping := false, interrupted := false,
         handled := 1 }, WaitResult.timed_out) ∧
    (wait_win32 (wake_in_poll_library.during_process_events 0) []
        (wake_in_poll_library.during_wait 0) CreateEvent).2 = WaitResult.timed_out ∧
    (wait_posix [] [Callback.notify_main_thread] [] [] SignalState.start).2 =
      WaitResult.timed_out ∧
    (wait_posix [] [] [Callback.notify_main_thread] [] SignalState.start).2 =
      WaitResult.timed_out ∧
    (wait_win32 [] [Callback.notify_main_thread] [] CreateEvent).2 = WaitResult.timed_out ∧
    (wait_posix [] [] [] [Callback.notify_main_thread] SignalState.start).2 =
      WaitResult.woken ∧
    (wait_win32 [] [] [Callback.notify_main_thread] CreateEvent).2 = WaitResult.woken := by
  refine ⟨?_, ?_, by decide, by decide, by decide, by decide, by decide, by decide,
    by decide, by decide⟩
  · have hb : (callbacks_posix before_sleep (pthread_sigmask_unblock
        (callbacks_posix before_unblock (callbacks_posix inside
          (pthread_sigmask_block σ))))).blocked = false := by
      rw [(callbacks_posix_blocked _ _).1]
      simp only [pthread_sigmask_unblock, deliver, sigIgn]
      split <;> (try split) <;> rfl
    simp only [wait_posix]
    exact usleep_woken_iff during _ hb
  · have hs : (callbacks_win32 before_unblock
        (callbacks_win32 inside CreateEvent)).signaled = false :=
      callbacks_win32_signaled _ _ (callbacks_win32_signaled _ _ rfl)
    simp only [wait_win32, WaitForSingleObject, hs]
    rw [callbacks_win32_released _ _ (Or.inl rfl)]
    by_cases hm : Callback.notify_main_thread ∈ during <;> simp [hm]

end OpenSpotify
